import Mathlib

/-!
Verification of the farcaster-node service fabric: a shallow embedding of the
Wallet and Syncer bus runtimes, the RPC `Request` type-tag table, and the
`CheckpointWallet` serialization glue, with theorems checking the
specification's claims against the embedded code.

Namespace `FN` holds the shared data model (`ServiceId`, `ServiceBus`,
`BusMsg`, tasks and events); `FN.Walletd` and `FN.Syncerd` embed the two
`Runtime` handler implementations from `src/walletd/runtime.rs` and
`src/syncerd/runtime.rs`; `FN.Rpc` embeds the `Request` enum of
`src/rpc/request.rs`.
-/

namespace FN

/-- A byte, as carried by tokens, serialized streams, and addresses. -/
abbrev Byte := Fin 256

/-- Blockchains a Syncer can serve (`farcaster_core::blockchain::Blockchain`). -/
inductive Blockchain
  | Bitcoin
  | Monero
deriving DecidableEq, Repr

/-- Networks (`farcaster_core::blockchain::Network`). -/
inductive Network
  | Mainnet
  | Testnet
  | Local
deriving DecidableEq, Repr

/-- Service identities on the bus. Payloads of `Peer`, `Swap` and `Client`
are opaque to the handlers embedded here and are abstracted as `Nat`. -/
inductive ServiceId
  | Farcasterd
  | Wallet
  | Peer (addr : Nat)
  | Swap (swapId : Nat)
  | Syncer (chain : Blockchain) (net : Network)
  | Client (nonce : Nat)
deriving DecidableEq, Repr

/-- The bus lanes (`ServiceBus`): three public lanes plus the internal
syncer bridge. -/
inductive ServiceBus
  | Ctl
  | Info
  | Sync
  | Bridge
deriving DecidableEq, Repr

/-- Capability token: a byte string compared structurally (the code compares
with `!=`). -/
structure Token where
  bytes : List Byte
deriving DecidableEq, Repr

/-- Public offer payload; opaque to the wallet handler, abstracted as `Nat`. -/
abbrev PublicOffer := Nat

/-- Per-swap key derivation context, `farcaster_core::swap::btcxmr::KeyManager`.
The derivation itself is external to the embedded handlers; it is modelled as
the pair of its two inputs, which is faithful for every property proved here
(the handlers only construct and forward it). -/
structure KeyManager where
  seed : Nat
  index : Nat
deriving DecidableEq, Repr

/-- `KeyManager::new(seed, index)`: deterministic derivation from seed and
derivation index. -/
def KeyManager.new (seed index : Nat) : KeyManager :=
  { seed := seed, index := index }

/-- Newtype wrapper `WrappedKeyManager` used inside `SwapKeys`. -/
structure WrappedKeyManager where
  km : KeyManager
deriving DecidableEq, Repr

/-- The `SwapKeys` reply payload. -/
structure SwapKeys where
  key_manager : WrappedKeyManager
  public_offer : PublicOffer
deriving DecidableEq, Repr

/-- Abstract blockchain task submitted to a Syncer. Each variant carries a
caller-assigned task id; chain-specific payloads are abstracted as `Nat`
or byte lists, which the Runtime never inspects. -/
inductive Task
  | WatchHeight (id : Nat)
  | WatchAddress (id : Nat) (addr : Nat) (fromHeight : Nat)
  | WatchTransaction (id : Nat) (txid : Nat) (confirmationBound : Nat)
  | BroadcastTransaction (id : Nat) (tx : List Byte)
  | SweepAddress (id : Nat) (addr : Nat)
  | GetTx (id : Nat) (txid : Nat)
  | Abort (id : Nat)
deriving DecidableEq, Repr

/-- `SyncerdTask`: a task paired with the source that submitted it. -/
structure SyncerdTask where
  task : Task
  source : ServiceId
deriving DecidableEq, Repr

/-- Syncer event payloads delivered back to task sources. -/
inductive Event
  | HeightChanged (id : Nat) (height : Nat)
  | AddressTransaction (id : Nat) (tx : Nat)
  | TransactionConfirmations (id : Nat) (confs : Nat)
  | TransactionBroadcasted (id : Nat)
  | SweepSuccess (id : Nat)
  | TaskAborted (id : Nat)
deriving DecidableEq, Repr

/-- `SyncerdBridgeEvent`: an event paired with the source of the task that
produced it, as written by the Synclet onto the bridge. -/
structure SyncerdBridgeEvent where
  event : Event
  source : ServiceId
deriving DecidableEq, Repr

/-- `SyncerInfo` payload answered to `GetInfo`. -/
structure SyncerInfo where
  syncer : String
  uptime : Nat
  since : Nat
  tasks : List SyncerdTask
deriving DecidableEq, Repr

/-- Ctl-lane messages. `GetKeys(GetKeys(token))` and `Keys(Keys(sk, id))`
wrap their payloads in same-named newtypes in the source; the newtypes are
flattened here. Only variants the embedded handlers match on (plus the two
reply variants, which reach the handlers' catch-all arms) are listed; the
source enum is larger but `non_exhaustive` handling is identical for every
unlisted variant. -/
inductive CtlMsg
  | Hello
  | Terminate
  | CreateSwapKeys (offer : PublicOffer) (token : Token)
  | GetKeys (token : Token)
  | SwapKeys (keys : FN.SwapKeys)
  | Keys (secretKey : Nat) (nodeId : Nat)
deriving DecidableEq, Repr

/-- Info-lane messages: the two queries the Syncer answers plus its two reply
variants (which, when received, reach the catch-all arm). -/
inductive InfoMsg
  | GetInfo
  | ListTasks
  | SyncerInfo (i : FN.SyncerInfo)
  | TaskList (ts : List SyncerdTask)
deriving DecidableEq, Repr

/-- Sync-lane messages. -/
inductive SyncMsg
  | Task (t : FN.Task)
  | BridgeEvent (e : SyncerdBridgeEvent)
  | Event (e : FN.Event)
deriving DecidableEq, Repr

/-- `BusMsg`: the tagged union of the three message families. -/
inductive BusMsg
  | Ctl (m : CtlMsg)
  | Info (m : InfoMsg)
  | Sync (m : SyncMsg)
deriving DecidableEq, Repr

/-- `crate::Error` (the variants the embedded handlers produce). -/
inductive Error
  | NotSupported (bus : ServiceBus) (msg : String)
  | InvalidToken
deriving DecidableEq, Repr

/-- Display string of a Ctl message. The `Display` implementations live
outside the sampled sources; the handlers only embed the string opaquely in
`NotSupported` errors, so the exact text is immaterial. -/
def CtlMsg.display : CtlMsg → String
  | .Hello => "hello"
  | .Terminate => "terminate"
  | .CreateSwapKeys _ _ => "create_swap_keys"
  | .GetKeys _ => "get_keys"
  | .SwapKeys _ => "swap_keys"
  | .Keys _ _ => "keys"

/-- Display string of an Info message (see `CtlMsg.display`). -/
def InfoMsg.display : InfoMsg → String
  | .GetInfo => "get_info"
  | .ListTasks => "list_tasks"
  | .SyncerInfo _ => "syncer_info"
  | .TaskList _ => "task_list"

/-- Display string of a Sync message (see `CtlMsg.display`). -/
def SyncMsg.display : SyncMsg → String
  | .Task _ => "task"
  | .BridgeEvent _ => "bridge_event"
  | .Event _ => "event"

/-- Display string of a bus message, standing in for `request.to_string()`. -/
def BusMsg.display : BusMsg → String
  | .Ctl m => m.display
  | .Info m => m.display
  | .Sync m => m.display

/-- Display string of a service identity, standing in for
`identity().to_string()`. -/
def ServiceId.display : ServiceId → String
  | .Farcasterd => "farcasterd"
  | .Wallet => "walletd"
  | .Peer _ => "peerd"
  | .Swap _ => "swapd"
  | .Syncer _ _ => "syncerd"
  | .Client _ => "client"

/-- One message sent through `endpoints.send_to(bus, source, dest, msg)`. -/
structure Sent where
  bus : ServiceBus
  source : ServiceId
  dest : ServiceId
  msg : BusMsg
deriving DecidableEq, Repr

/-- Outcome of a handler call: normal return `Ok(())`, an error return, or
process exit (`std::process::exit`). -/
inductive HandleRes
  | ok
  | err (e : Error)
  | exited (code : Nat)
deriving DecidableEq, Repr

/-- Result of running a handler: the state at return, the messages sent on
the bus during the call (in order), and how the call returned. -/
structure HandleOut (S : Type) where
  state : S
  sent : List Sent
  res : HandleRes
deriving DecidableEq, Repr

end FN

namespace FN.Walletd

/-- `NodeSecrets`: the wallet's seed material and derivation counter. Seed and
keys are opaque to the handler and abstracted as `Nat`. -/
structure NodeSecrets where
  wallet_seed : Nat
  wallet_counter : Nat
  peerd_secret_key : Nat
  node_id_pk : Nat
deriving DecidableEq, Repr

/-- `NodeSecrets::node_id()`: the node's public identity. -/
def NodeSecrets.node_id (s : NodeSecrets) : Nat :=
  s.node_id_pk

/-- Modelled from the spec: `NodeSecrets::increment_wallet_counter` is not
among the sampled sources. Per the spec, `CreateSwapKeys` on token match
"atomically increment[s] `wallet_counter`" and derives the key manager from
the new counter value, so the call increments the counter and returns the
incremented value. -/
def NodeSecrets.increment_wallet_counter (s : NodeSecrets) : Nat × NodeSecrets :=
  (s.wallet_counter + 1, { s with wallet_counter := s.wallet_counter + 1 })

/-- The wallet service `Runtime` state. -/
structure Runtime where
  identity : FN.ServiceId
  wallet_token : FN.Token
  node_secrets : NodeSecrets
deriving DecidableEq, Repr

/-- `Runtime::identity()`. -/
def Runtime.identity' (r : Runtime) : FN.ServiceId :=
  r.identity

/-- `Runtime::handle_ctl` of the wallet: `Hello` is logged; `CreateSwapKeys`
and `GetKeys` are token-gated; every other variant is logged and dropped
(`Ok(())`). Bus sends are modelled by accumulating `Sent` records; the
external fallible calls (`KeyManager::new`, `endpoints.send_to`) are modelled
as total, which cannot produce `InvalidToken` and so preserves every property
proved below. -/
def Runtime.handle_ctl (r : Runtime) (_source : FN.ServiceId) (request : FN.CtlMsg) :
    FN.HandleOut Runtime :=
  match request with
  | .Hello => ⟨r, [], .ok⟩
  | .CreateSwapKeys public_offer wallet_token =>
    if wallet_token ≠ r.wallet_token then
      ⟨r, [], .err .InvalidToken⟩
    else
      let (wallet_index, ns) := r.node_secrets.increment_wallet_counter
      let key_manager := FN.KeyManager.new ns.wallet_seed wallet_index
      let swap_keys : FN.SwapKeys :=
        { key_manager := ⟨key_manager⟩, public_offer := public_offer }
      let r' : Runtime := { r with node_secrets := ns }
      ⟨r',
       [⟨.Ctl, r'.identity', .Farcasterd, .Ctl (.SwapKeys swap_keys)⟩],
       .ok⟩
  | .GetKeys wallet_token =>
    if wallet_token ≠ r.wallet_token then
      ⟨r, [], .err .InvalidToken⟩
    else
      ⟨r,
       [⟨.Ctl, .Wallet, .Farcasterd,
         .Ctl (.Keys r.node_secrets.peerd_secret_key r.node_secrets.node_id)⟩],
       .ok⟩
  | _ => ⟨r, [], .ok⟩

/-- `Runtime::handle` of the wallet: only the `(Ctl, Ctl)` pair is accepted;
every other `(lane, family)` pair is rejected with `NotSupported`. -/
def Runtime.handle (r : Runtime) (bus : FN.ServiceBus) (source : FN.ServiceId)
    (request : FN.BusMsg) : FN.HandleOut Runtime :=
  match bus, request with
  | .Ctl, .Ctl req => r.handle_ctl source req
  | b, req => ⟨r, [], .err (.NotSupported b req.display)⟩

/-- The `(lane, family)` pairs the wallet's `handle` dispatches on. -/
def allowed : FN.ServiceBus → FN.BusMsg → Bool
  | .Ctl, .Ctl _ => true
  | _, _ => false

end FN.Walletd

namespace FN.Syncerd

/-- `HashSet::insert` on the list model of the outstanding-task set: a no-op
when a structurally equal element is already present, otherwise appended. -/
def setInsert (t : FN.SyncerdTask) (l : List FN.SyncerdTask) : List FN.SyncerdTask :=
  if t ∈ l then l else l ++ [t]

/-- The syncer service `Runtime` state: identity, start time (seconds since
epoch), the `HashSet<SyncerdTask>` of outstanding tasks (modelled as a
duplicate-free list), and the mpsc channel to the Synclet worker (modelled as
the list of tasks sent on it, in order). -/
structure Runtime where
  identity : FN.ServiceId
  started : Nat
  tasks : List FN.SyncerdTask
  txQueue : List FN.SyncerdTask
deriving DecidableEq, Repr

/-- `Runtime::handle_ctl` of the syncer: `Hello` is logged; `Terminate` from
`Farcasterd` exits the process with code 0; every other (request, source)
pair is rejected with `NotSupported`. -/
def Runtime.handle_ctl (r : Runtime) (source : FN.ServiceId) (request : FN.CtlMsg) :
    FN.HandleOut Runtime :=
  match request, source with
  | .Hello, _ => ⟨r, [], .ok⟩
  | .Terminate, .Farcasterd => ⟨r, [], .exited 0⟩
  | _, _ => ⟨r, [], .err (.NotSupported .Ctl request.display)⟩

/-- Modelled from the spec: `send_client_info` comes from the `CtlServer`
trait, which is not among the sampled sources; per the spec, Info replies are
separate messages on the Info lane addressed back to the requesting source. -/
def send_client_info (r : Runtime) (source : FN.ServiceId) (msg : FN.InfoMsg) :
    FN.Sent :=
  ⟨.Info, r.identity, source, .Info msg⟩

/-- `Runtime::handle_info` of the syncer: `GetInfo` and `ListTasks` are
answered with projections of the runtime state (`now` models
`SystemTime::now()` in seconds since epoch); every other variant is logged
and dropped. -/
def Runtime.handle_info (now : Nat) (r : Runtime) (source : FN.ServiceId)
    (request : FN.InfoMsg) : FN.HandleOut Runtime :=
  match request with
  | .GetInfo =>
    ⟨r,
     [send_client_info r source (.SyncerInfo
       { syncer := r.identity.display
         uptime := now - r.started
         since := r.started
         tasks := r.tasks })],
     .ok⟩
  | .ListTasks =>
    ⟨r, [send_client_info r source (.TaskList r.tasks)], .ok⟩
  | _ => ⟨r, [], .ok⟩

/-- `Runtime::handle_sync` of the syncer: a `Task` is paired with its source,
inserted into the outstanding set, and forwarded to the Synclet on the
channel (the channel send's own failure is caught and only logged); every
other variant is logged and dropped. -/
def Runtime.handle_sync (r : Runtime) (source : FN.ServiceId) (request : FN.SyncMsg) :
    FN.HandleOut Runtime :=
  match request with
  | .Task task =>
    let t : FN.SyncerdTask := { task := task, source := source }
    ⟨{ r with tasks := setInsert t r.tasks, txQueue := r.txQueue ++ [t] }, [], .ok⟩
  | _ => ⟨r, [], .ok⟩

/-- `Runtime::handle_bridge` of the syncer: a `BridgeEvent` is re-emitted on
the Sync lane to the source recorded in the bridge event; every other
variant is logged and dropped. -/
def Runtime.handle_bridge (r : Runtime) (_source : FN.ServiceId)
    (request : FN.SyncMsg) : FN.HandleOut Runtime :=
  match request with
  | .BridgeEvent e =>
    ⟨r, [⟨.Sync, r.identity, e.source, .Sync (.Event e.event)⟩], .ok⟩
  | _ => ⟨r, [], .ok⟩

/-- `Runtime::handle` of the syncer: dispatch on the `(lane, family)` pair;
pairs outside the allowed set are rejected with `NotSupported`. -/
def Runtime.handle (now : Nat) (r : Runtime) (bus : FN.ServiceBus)
    (source : FN.ServiceId) (request : FN.BusMsg) : FN.HandleOut Runtime :=
  match bus, request with
  | .Ctl, .Ctl req => r.handle_ctl source req
  | .Info, .Info req => Runtime.handle_info now r source req
  | .Sync, .Sync req => r.handle_sync source req
  | .Bridge, .Sync req => r.handle_bridge source req
  | b, req => ⟨r, [], .err (.NotSupported b req.display)⟩

/-- The `(lane, family)` pairs the syncer's `handle` dispatches on. -/
def allowed : FN.ServiceBus → FN.BusMsg → Bool
  | .Ctl, .Ctl _ => true
  | .Info, .Info _ => true
  | .Sync, .Sync _ => true
  | .Bridge, .Sync _ => true
  | _, _ => false

/-- Modelled from the spec: the chain-specific Synclet implementations
(`BitcoinSyncer`, `MoneroSyncer`) are not among the sampled sources. Per the
spec's task semantics ("submitting a Task equal ... to one already
outstanding is a no-op", events "as if submitted once"), the events the
Syncer emits are a function of the set of outstanding tasks and the observed
chain state (abstracted as the current `height`), one event batch per
outstanding task, each addressed to that task's source. -/
def syncletEventsFor (height : Nat) (st : FN.SyncerdTask) : List FN.Event :=
  match st.task with
  | .WatchHeight id => [.HeightChanged id height]
  | .WatchAddress id addr _ => [.AddressTransaction id addr]
  | .WatchTransaction id _ confs => [.TransactionConfirmations id confs]
  | .BroadcastTransaction id _ => [.TransactionBroadcasted id]
  | .SweepAddress id _ => [.SweepSuccess id]
  | .GetTx _ _ => []
  | .Abort id => [.TaskAborted id]

/-- The (source, event) pairs the Syncer emits for its current outstanding
set at chain state `height` (see `syncletEventsFor`). -/
def syncerEmits (height : Nat) (r : Runtime) : List (FN.ServiceId × FN.Event) :=
  r.tasks.flatMap fun st => (syncletEventsFor height st).map fun e => (st.source, e)

end FN.Syncerd

namespace FN.Rpc

/-- Rpc payload types from `src/rpc/request.rs`. They are opaque to the
type-tag table and abstracted as `Nat` (identifiers, addresses, outpoints,
wire messages) or kept structural where the source defines them locally. -/
abbrev SwapId := Nat

/-- Wire protocol messages forwarded to peers (`lnp::Messages`). -/
abbrev Messages := Nat

/-- `RemoteSocketAddr`. -/
abbrev RemoteSocketAddr := Nat

/-- `NodeAddr`. -/
abbrev NodeAddr := Nat

/-- `bitcoin::OutPoint`. -/
abbrev OutPoint := Nat

/-- `wallet::PubkeyScript`. -/
abbrev PubkeyScript := Nat

/-- The `FarMsgs` enum of `src/rpc/request.rs`, payload abstracted. -/
inductive FarMsgs
  | CommitAliceSessionParams (params : Nat)
deriving DecidableEq, Repr

/-- The `CreateSwap` payload of `src/rpc/request.rs`. -/
structure CreateSwap where
  swap_req : Nat
  peerd : Nat
  report_to : Option Nat
deriving DecidableEq, Repr

/-- `OptionDetails`: optional human-readable details of a `Success`. -/
structure OptionDetails where
  details : Option String
deriving DecidableEq, Repr

/-- `microservices::rpc::Failure`: an error code plus info text. -/
structure Failure where
  code : Nat
  info : String
deriving DecidableEq, Repr

/-- Read-only projections returned to Info queries; their fields are not
consulted by the tag table and are abstracted as `Nat`. -/
abbrev NodeInfo := Nat

/-- `PeerInfo` projection, abstracted as `Nat`. -/
abbrev PeerInfo := Nat

/-- `SwapInfo` projection, abstracted as `Nat`. -/
abbrev SwapInfo := Nat

/-- The RPC `Request` enum of `src/rpc/request.rs`, with one constructor per
`#[lnp_api(type = ...)]` variant. -/
inductive Request
  | Hello
  | UpdateSwapId (id : SwapId)
  | PeerMessage (m : Messages)
  | FarMsgs (m : FN.Rpc.FarMsgs)
  | GetInfo
  | ListPeers
  | ListSwaps
  | Listen (addr : RemoteSocketAddr)
  | ConnectPeer (addr : NodeAddr)
  | PingPeer
  | OpenSwapWith (c : CreateSwap)
  | AcceptSwapFrom (c : CreateSwap)
  | FundSwap (o : OutPoint)
  | Progress (s : String)
  | Success (d : OptionDetails)
  | Failure (f : FN.Rpc.Failure)
  | NodeInfo (n : FN.Rpc.NodeInfo)
  | PeerInfo (p : FN.Rpc.PeerInfo)
  | SwapInfo (s : FN.Rpc.SwapInfo)
  | PeerList (l : List NodeAddr)
  | SwapList (l : List SwapId)
  | SwapFunding (p : PubkeyScript)
deriving DecidableEq, Repr

/-- The stable integer type tag of each `Request` variant, transcribed from
the `#[lnp_api(type = ...)]` attributes. -/
def Request.typeTag : Request → Nat
  | .Hello => 0
  | .UpdateSwapId _ => 1
  | .PeerMessage _ => 2
  | .FarMsgs _ => 3
  | .GetInfo => 100
  | .ListPeers => 101
  | .ListSwaps => 102
  | .Listen _ => 200
  | .ConnectPeer _ => 201
  | .PingPeer => 202
  | .OpenSwapWith _ => 203
  | .AcceptSwapFrom _ => 204
  | .FundSwap _ => 205
  | .Progress _ => 1002
  | .Success _ => 1001
  | .Failure _ => 1000
  | .NodeInfo _ => 1100
  | .PeerInfo _ => 1101
  | .SwapInfo _ => 1102
  | .PeerList _ => 1103
  | .SwapList _ => 1104
  | .SwapFunding _ => 1203

end FN.Rpc

namespace FN.Ckpt

/-- Errors of the `strict_encoding` crate surfaced by the checkpoint decoder:
an I/O underflow while reading, or a data-integrity failure. -/
inductive StrictError
  | ioError
  | dataIntegrityError (msg : String)
deriving DecidableEq, Repr

/-- Modelled from the spec: the wallet state and its strict encoding
(`Wallet::strict_encode` / `strict_decode` of `walletd::state`) are not among
the sampled sources. Per the spec the wallet body is a self-delimiting
segment of a canonical length-delimited binary encoding; it is modelled as a
length-prefixed byte string. -/
structure Wallet where
  body : List FN.Byte
deriving DecidableEq, Repr

/-- Encoding of the wallet body: one length byte followed by the body. -/
def Wallet.strict_encode (w : Wallet) : List FN.Byte :=
  ⟨w.body.length % 256, by omega⟩ :: w.body

/-- Decoding of the wallet body: reads the length byte, then exactly that
many bytes; fails on underflow. Returns the value and the unread rest of the
stream. -/
def Wallet.strict_decode (s : List FN.Byte) : Except StrictError (Wallet × List FN.Byte) :=
  match s with
  | [] => .error .ioError
  | l :: rest =>
    if rest.length < l.val then .error .ioError
    else .ok (⟨rest.take l.val⟩, rest.drop l.val)

/-- Modelled from the spec: `monero::Address` consensus encoding is external
to the sampled sources. A Monero address is a network byte followed by a
fixed 64-byte key payload (two 32-byte public keys); decoding fails on a
stream shorter than 65 bytes. -/
structure Address where
  netByte : FN.Byte
  payload : List FN.Byte
deriving DecidableEq, Repr

/-- `monero::Address::consensus_encode`. -/
def Address.consensus_encode (a : Address) : List FN.Byte :=
  a.netByte :: a.payload

/-- `monero::Address::consensus_decode`; the error is the stringified monero
encode error (`err.to_string()` at the call site). -/
def Address.consensus_decode (s : List FN.Byte) : Except String (Address × List FN.Byte) :=
  match s with
  | [] => .error "end of stream"
  | n :: rest =>
    if rest.length < 64 then .error "end of stream"
    else .ok (⟨n, rest.take 64⟩, rest.drop 64)

/-- `CheckpointWallet` from `src/walletd/runtime.rs`: the wallet state plus
the swap's Monero address. -/
structure CheckpointWallet where
  wallet : Wallet
  xmr_addr : Address
deriving DecidableEq, Repr

/-- `CheckpointWallet::strict_encode`: the wallet body followed by the Monero
address consensus bytes. -/
def CheckpointWallet.strict_encode (c : CheckpointWallet) : List FN.Byte :=
  c.wallet.strict_encode ++ c.xmr_addr.consensus_encode

/-- `CheckpointWallet::strict_decode`: decode the wallet, then the address
from the remaining bytes, mapping an address decode failure to
`DataIntegrityError`. -/
def CheckpointWallet.strict_decode (s : List FN.Byte) :
    Except StrictError (CheckpointWallet × List FN.Byte) :=
  match Wallet.strict_decode s with
  | .error e => .error e
  | .ok (w, rest) =>
    match Address.consensus_decode rest with
    | .error msg => .error (.dataIntegrityError msg)
    | .ok (a, rest2) => .ok (⟨w, a⟩, rest2)

end FN.Ckpt

namespace FN

theorem setInsert_mem (t : SyncerdTask) (l : List SyncerdTask) :
    t ∈ Syncerd.setInsert t l := by
  by_cases h : t ∈ l <;> simp [Syncerd.setInsert, h]

theorem setInsert_of_mem {t : SyncerdTask} {l : List SyncerdTask} (h : t ∈ l) :
    Syncerd.setInsert t l = l := by
  simp [Syncerd.setInsert, h]

theorem setInsert_idem (t : SyncerdTask) (l : List SyncerdTask) :
    Syncerd.setInsert t (Syncerd.setInsert t l) = Syncerd.setInsert t l :=
  setInsert_of_mem (setInsert_mem t l)

theorem setInsert_nodup {t : SyncerdTask} {l : List SyncerdTask} (h : l.Nodup) :
    (Syncerd.setInsert t l).Nodup := by
  by_cases ht : t ∈ l
  · simpa [Syncerd.setInsert, ht] using h
  · simp [Syncerd.setInsert, ht, List.nodup_append, h, List.disjoint_singleton]

theorem count_setInsert_self {t : SyncerdTask} {l : List SyncerdTask} (h : l.Nodup) :
    (Syncerd.setInsert t l).count t = 1 := by
  by_cases ht : t ∈ l
  · rw [setInsert_of_mem ht]
    exact List.count_eq_one_of_mem h ht
  · simp [Syncerd.setInsert, ht, List.count_append, List.count_eq_zero_of_not_mem ht]

/-- C1: a token-gated wallet request (`CreateSwapKeys` or `GetKeys`) fails
with `InvalidToken` exactly when the supplied token differs from the stored
wallet token, and on a mismatch the runtime state is unchanged (in
particular `wallet_counter`) and no reply is sent. -/
theorem wallet_token_gate (r : Walletd.Runtime) (src : ServiceId)
    (offer : PublicOffer) (tok : Token) :
    ((Walletd.Runtime.handle_ctl r src (.CreateSwapKeys offer tok)).res
        = .err .InvalidToken ↔ tok ≠ r.wallet_token)
    ∧ ((Walletd.Runtime.handle_ctl r src (.GetKeys tok)).res
        = .err .InvalidToken ↔ tok ≠ r.wallet_token)
    ∧ (tok ≠ r.wallet_token →
        Walletd.Runtime.handle_ctl r src (.CreateSwapKeys offer tok)
            = ⟨r, [], .err .InvalidToken⟩
        ∧ Walletd.Runtime.handle_ctl r src (.GetKeys tok)
            = ⟨r, [], .err .InvalidToken⟩) := by
  by_cases h : tok = r.wallet_token <;>
    simp [Walletd.Runtime.handle_ctl, h]

theorem wallet_token_gate_witness :
    ((⟨[0]⟩ : Token) ≠ (⟨[1]⟩ : Token))
    ∧ Walletd.Runtime.handle_ctl ⟨.Wallet, ⟨[1]⟩, ⟨3, 10, 4, 5⟩⟩ .Farcasterd
        (.CreateSwapKeys 0 ⟨[0]⟩)
        = ⟨⟨.Wallet, ⟨[1]⟩, ⟨3, 10, 4, 5⟩⟩, [], .err .InvalidToken⟩
    ∧ Walletd.Runtime.handle_ctl ⟨.Wallet, ⟨[1]⟩, ⟨3, 10, 4, 5⟩⟩ .Farcasterd
        (.GetKeys ⟨[0]⟩)
        = ⟨⟨.Wallet, ⟨[1]⟩, ⟨3, 10, 4, 5⟩⟩, [], .err .InvalidToken⟩ :=
  ⟨by decide,
   ((wallet_token_gate ⟨.Wallet, ⟨[1]⟩, ⟨3, 10, 4, 5⟩⟩ .Farcasterd 0 ⟨[0]⟩).2.2
     (by decide)).1,
   ((wallet_token_gate ⟨.Wallet, ⟨[1]⟩, ⟨3, 10, 4, 5⟩⟩ .Farcasterd 0 ⟨[0]⟩).2.2
     (by decide)).2⟩

/-- C6: on token match, `CreateSwapKeys` increments `wallet_counter`, derives
a fresh `KeyManager` from the wallet seed and the new counter value, and
replies on the Ctl lane to `Farcasterd` with `SwapKeys` carrying that key
manager and the same public offer. -/
theorem create_swap_keys_success (r : Walletd.Runtime) (src : ServiceId)
    (offer : PublicOffer) (tok : Token) (h : tok = r.wallet_token) :
    Walletd.Runtime.handle_ctl r src (.CreateSwapKeys offer tok)
      = ⟨{ r with node_secrets :=
             { r.node_secrets with
                 wallet_counter := r.node_secrets.wallet_counter + 1 } },
         [⟨.Ctl, r.identity, .Farcasterd,
           .Ctl (.SwapKeys
             ⟨⟨KeyManager.new r.node_secrets.wallet_seed
                 (r.node_secrets.wallet_counter + 1)⟩, offer⟩)⟩],
         .ok⟩ := by
  subst h
  simp [Walletd.Runtime.handle_ctl, Walletd.NodeSecrets.increment_wallet_counter,
    Walletd.Runtime.identity']

theorem create_swap_keys_success_witness :
    ((⟨[7]⟩ : Token) = (Walletd.Runtime.mk .Wallet ⟨[7]⟩ ⟨3, 10, 4, 5⟩).wallet_token)
    ∧ Walletd.Runtime.handle_ctl ⟨.Wallet, ⟨[7]⟩, ⟨3, 10, 4, 5⟩⟩ .Farcasterd
        (.CreateSwapKeys 9 ⟨[7]⟩)
        = ⟨⟨.Wallet, ⟨[7]⟩, ⟨3, 11, 4, 5⟩⟩,
           [⟨.Ctl, .Wallet, .Farcasterd,
             .Ctl (.SwapKeys ⟨⟨⟨3, 11⟩⟩, 9⟩)⟩],
           .ok⟩ :=
  ⟨rfl,
   create_swap_keys_success ⟨.Wallet, ⟨[7]⟩, ⟨3, 10, 4, 5⟩⟩ .Farcasterd 9 ⟨[7]⟩ rfl⟩

/-- C10: a successful token-gated wallet request replies with a single
message (`SwapKeys` resp. `Keys`) on the Ctl lane addressed to the fixed
`ServiceId.Farcasterd`, whatever source sent the request. -/
theorem wallet_replies_addressed_to_farcasterd (r : Walletd.Runtime)
    (src : ServiceId) (offer : PublicOffer) (tok : Token)
    (h : tok = r.wallet_token) :
    (∃ k : SwapKeys,
      (Walletd.Runtime.handle_ctl r src (.CreateSwapKeys offer tok)).sent
        = [⟨.Ctl, r.identity, .Farcasterd, .Ctl (.SwapKeys k)⟩])
    ∧ (∃ sk ni : Nat,
      (Walletd.Runtime.handle_ctl r src (.GetKeys tok)).sent
        = [⟨.Ctl, .Wallet, .Farcasterd, .Ctl (.Keys sk ni)⟩])
    ∧ ((Walletd.Runtime.handle_ctl r src (.CreateSwapKeys offer tok)).sent.map
        Sent.dest = [.Farcasterd])
    ∧ ((Walletd.Runtime.handle_ctl r src (.GetKeys tok)).sent.map
        Sent.dest = [.Farcasterd]) := by
  subst h
  refine ⟨⟨⟨⟨KeyManager.new r.node_secrets.wallet_seed
              (r.node_secrets.wallet_counter + 1)⟩, offer⟩, ?_⟩,
         ⟨r.node_secrets.peerd_secret_key, r.node_secrets.node_id, ?_⟩, ?_, ?_⟩ <;>
    simp [Walletd.Runtime.handle_ctl, Walletd.NodeSecrets.increment_wallet_counter,
      Walletd.Runtime.identity']

theorem wallet_replies_addressed_to_farcasterd_witness :
    ((⟨[7]⟩ : Token) = (Walletd.Runtime.mk .Wallet ⟨[7]⟩ ⟨3, 10, 4, 5⟩).wallet_token)
    ∧ ((Walletd.Runtime.handle_ctl ⟨.Wallet, ⟨[7]⟩, ⟨3, 10, 4, 5⟩⟩ (.Client 2)
          (.CreateSwapKeys 9 ⟨[7]⟩)).sent.map Sent.dest = [.Farcasterd])
    ∧ ((Walletd.Runtime.handle_ctl ⟨.Wallet, ⟨[7]⟩, ⟨3, 10, 4, 5⟩⟩ (.Client 2)
          (.GetKeys ⟨[7]⟩)).sent.map Sent.dest = [.Farcasterd]) :=
  ⟨rfl,
   (wallet_replies_addressed_to_farcasterd ⟨.Wallet, ⟨[7]⟩, ⟨3, 10, 4, 5⟩⟩
     (.Client 2) 9 ⟨[7]⟩ rfl).2.2.1,
   (wallet_replies_addressed_to_farcasterd ⟨.Wallet, ⟨[7]⟩, ⟨3, 10, 4, 5⟩⟩
     (.Client 2) 9 ⟨[7]⟩ rfl).2.2.2⟩

/-- C2: submitting on the Sync lane a `Task` structurally equal to one
already outstanding from the same source is a no-op: the outstanding-task
set is unchanged by the resubmission, holds exactly one entry for the task,
and the events the Syncer emits (a function of the outstanding set) are the
same as if the task had been submitted once. -/
theorem syncer_task_idempotent (r : Syncerd.Runtime) (src : ServiceId)
    (t : Task) (height : Nat) (hnd : r.tasks.Nodup) :
    ((Syncerd.Runtime.handle_sync
        (Syncerd.Runtime.handle_sync r src (.Task t)).state src (.Task t)).state.tasks
      = (Syncerd.Runtime.handle_sync r src (.Task t)).state.tasks)
    ∧ (⟨t, src⟩ : SyncerdTask)
        ∈ (Syncerd.Runtime.handle_sync r src (.Task t)).state.tasks
    ∧ ((Syncerd.Runtime.handle_sync
        (Syncerd.Runtime.handle_sync r src (.Task t)).state src (.Task t)).state.tasks.count
          (⟨t, src⟩ : SyncerdTask) = 1)
    ∧ Syncerd.syncerEmits height
        (Syncerd.Runtime.handle_sync
          (Syncerd.Runtime.handle_sync r src (.Task t)).state src (.Task t)).state
      = Syncerd.syncerEmits height (Syncerd.Runtime.handle_sync r src (.Task t)).state
    ∧ (Syncerd.Runtime.handle_sync
        (Syncerd.Runtime.handle_sync r src (.Task t)).state src (.Task t)).sent = []
    ∧ (Syncerd.Runtime.handle_sync
        (Syncerd.Runtime.handle_sync r src (.Task t)).state src (.Task t)).res = .ok := by
  refine ⟨?_, ?_, ?_, ?_, rfl, rfl⟩
  · simp [Syncerd.Runtime.handle_sync, setInsert_idem]
  · simpa [Syncerd.Runtime.handle_sync] using setInsert_mem ⟨t, src⟩ r.tasks
  · simp only [Syncerd.Runtime.handle_sync, setInsert_idem]
    exact count_setInsert_self hnd
  · simp [Syncerd.syncerEmits, Syncerd.Runtime.handle_sync, setInsert_idem]

theorem syncer_task_idempotent_witness :
    (([] : List SyncerdTask).Nodup)
    ∧ ((Syncerd.Runtime.handle_sync
          (Syncerd.Runtime.handle_sync ⟨.Syncer .Bitcoin .Mainnet, 0, [], []⟩
            (.Swap 42) (.Task (.WatchHeight 1))).state
          (.Swap 42) (.Task (.WatchHeight 1))).state.tasks
        = (Syncerd.Runtime.handle_sync ⟨.Syncer .Bitcoin .Mainnet, 0, [], []⟩
            (.Swap 42) (.Task (.WatchHeight 1))).state.tasks)
    ∧ ((Syncerd.Runtime.handle_sync
          (Syncerd.Runtime.handle_sync ⟨.Syncer .Bitcoin .Mainnet, 0, [], []⟩
            (.Swap 42) (.Task (.WatchHeight 1))).state
          (.Swap 42) (.Task (.WatchHeight 1))).state.tasks.count
            (⟨.WatchHeight 1, .Swap 42⟩ : SyncerdTask) = 1) :=
  ⟨by decide,
   (syncer_task_idempotent ⟨.Syncer .Bitcoin .Mainnet, 0, [], []⟩ (.Swap 42)
     (.WatchHeight 1) 0 (by decide)).1,
   (syncer_task_idempotent ⟨.Syncer .Bitcoin .Mainnet, 0, [], []⟩ (.Swap 42)
     (.WatchHeight 1) 0 (by decide)).2.2.1⟩

/-- C3: an incoming bus message whose `(lane, family)` pair is outside the
receiving service's allowed set is rejected with `NotSupported`, the state
is unchanged and nothing is sent — for the Syncer and for the Wallet. -/
theorem lane_family_not_supported (now : Nat) (bus : ServiceBus) (msg : BusMsg)
    (src : ServiceId) :
    (Syncerd.allowed bus msg = false →
      ∀ r : Syncerd.Runtime,
        Syncerd.Runtime.handle now r bus src msg
          = ⟨r, [], .err (.NotSupported bus msg.display)⟩)
    ∧ (Walletd.allowed bus msg = false →
      ∀ r : Walletd.Runtime,
        Walletd.Runtime.handle r bus src msg
          = ⟨r, [], .err (.NotSupported bus msg.display)⟩) := by
  cases bus <;> cases msg <;>
    simp [Syncerd.allowed, Walletd.allowed, Syncerd.Runtime.handle,
      Walletd.Runtime.handle]

theorem lane_family_not_supported_witness :
    Syncerd.allowed .Ctl (.Info .GetInfo) = false
    ∧ Walletd.allowed .Ctl (.Info .GetInfo) = false
    ∧ Syncerd.Runtime.handle 0 ⟨.Syncer .Bitcoin .Mainnet, 0, [], []⟩ .Ctl
        .Farcasterd (.Info .GetInfo)
        = ⟨⟨.Syncer .Bitcoin .Mainnet, 0, [], []⟩, [],
           .err (.NotSupported .Ctl (BusMsg.display (.Info .GetInfo)))⟩
    ∧ Walletd.Runtime.handle ⟨.Wallet, ⟨[]⟩, ⟨0, 0, 0, 0⟩⟩ .Ctl .Farcasterd
        (.Info .GetInfo)
        = ⟨⟨.Wallet, ⟨[]⟩, ⟨0, 0, 0, 0⟩⟩, [],
           .err (.NotSupported .Ctl (BusMsg.display (.Info .GetInfo)))⟩ :=
  ⟨by decide, by decide,
   (lane_family_not_supported 0 .Ctl (.Info .GetInfo) .Farcasterd).1 (by decide) _,
   (lane_family_not_supported 0 .Ctl (.Info .GetInfo) .Farcasterd).2 (by decide) _⟩

/-- C4 counterexample: a Ctl request variant unhandled by the Syncer's
`handle_ctl` (here `GetKeys`, at a concrete runtime and source) is NOT
dropped with `Ok`: the handler returns a `NotSupported` error, contradicting
the claim that unknown variants on a supported lane never yield an error. -/
theorem unknown_ctl_at_syncer_is_error :
    (Syncerd.Runtime.handle_ctl ⟨.Syncer .Bitcoin .Mainnet, 0, [], []⟩ .Wallet
        (.GetKeys ⟨[]⟩)).res
      = .err (.NotSupported .Ctl (CtlMsg.display (.GetKeys ⟨[]⟩)))
    ∧ (Syncerd.Runtime.handle_ctl ⟨.Syncer .Bitcoin .Mainnet, 0, [], []⟩ .Wallet
        (.GetKeys ⟨[]⟩)).res ≠ .ok := by
  exact ⟨rfl, by decide⟩

/-- C4 (amended): request variants unknown to the Wallet's Ctl sub-handler
and to the Syncer's Info and Sync sub-handlers are logged and dropped with
`Ok` and no state change; but a Ctl variant unknown to the Syncer's
`handle_ctl` is rejected with a `NotSupported` error. -/
theorem unknown_variants_dropped (now : Nat) (src : ServiceId) :
    (∀ (r : Syncerd.Runtime) (i : SyncerInfo),
      Syncerd.Runtime.handle_info now r src (.SyncerInfo i) = ⟨r, [], .ok⟩)
    ∧ (∀ (r : Syncerd.Runtime) (ts : List SyncerdTask),
      Syncerd.Runtime.handle_info now r src (.TaskList ts) = ⟨r, [], .ok⟩)
    ∧ (∀ (r : Syncerd.Runtime) (e : Event),
      Syncerd.Runtime.handle_sync r src (.Event e) = ⟨r, [], .ok⟩)
    ∧ (∀ (r : Syncerd.Runtime) (e : SyncerdBridgeEvent),
      Syncerd.Runtime.handle_sync r src (.BridgeEvent e) = ⟨r, [], .ok⟩)
    ∧ (∀ (r : Walletd.Runtime) (k : SwapKeys),
      Walletd.Runtime.handle_ctl r src (.SwapKeys k) = ⟨r, [], .ok⟩)
    ∧ (∀ (r : Walletd.Runtime) (sk ni : Nat),
      Walletd.Runtime.handle_ctl r src (.Keys sk ni) = ⟨r, [], .ok⟩)
    ∧ (∀ r : Walletd.Runtime,
      Walletd.Runtime.handle_ctl r src .Terminate = ⟨r, [], .ok⟩)
    ∧ (∀ (r : Syncerd.Runtime) (k : SwapKeys),
      Syncerd.Runtime.handle_ctl r src (.SwapKeys k)
        = ⟨r, [], .err (.NotSupported .Ctl (CtlMsg.display (.SwapKeys k)))⟩) := by
  refine ⟨fun r i => rfl, fun r ts => rfl, fun r e => rfl, fun r e => rfl,
    fun r k => rfl, fun r sk ni => rfl, fun r => rfl, fun r k => ?_⟩
  cases src <;> rfl

/-- C5: a `BridgeEvent` received on the Bridge lane is re-emitted as exactly
one `Sync(Event)` message on the Sync lane, addressed to the source recorded
in the bridge event and to no other service; the runtime state is
unchanged. -/
theorem bridge_event_forwarded (now : Nat) (r : Syncerd.Runtime)
    (src : ServiceId) (e : SyncerdBridgeEvent) :
    Syncerd.Runtime.handle now r .Bridge src (.Sync (.BridgeEvent e))
      = ⟨r, [⟨.Sync, r.identity, e.source, .Sync (.Event e.event)⟩], .ok⟩ :=
  rfl

/-- C9: the Syncer's Ctl handler exits the process only on `Terminate` from
`Farcasterd`; a `Terminate` from any other source yields a `NotSupported`
error with the state unchanged and nothing sent. -/
theorem syncer_terminate_only_from_farcasterd (r : Syncerd.Runtime)
    (src : ServiceId) (req : CtlMsg) :
    ((Syncerd.Runtime.handle_ctl r src req).res = .exited 0
        ↔ (req = .Terminate ∧ src = .Farcasterd))
    ∧ (req = .Terminate → src ≠ .Farcasterd →
        Syncerd.Runtime.handle_ctl r src req
          = ⟨r, [], .err (.NotSupported .Ctl req.display)⟩) := by
  cases req <;> cases src <;> simp [Syncerd.Runtime.handle_ctl]

theorem syncer_terminate_only_from_farcasterd_witness :
    ((CtlMsg.Terminate : CtlMsg) = .Terminate)
    ∧ ((ServiceId.Wallet : ServiceId) ≠ .Farcasterd)
    ∧ Syncerd.Runtime.handle_ctl ⟨.Syncer .Bitcoin .Mainnet, 0, [], []⟩ .Wallet
        .Terminate
        = ⟨⟨.Syncer .Bitcoin .Mainnet, 0, [], []⟩, [],
           .err (.NotSupported .Ctl (CtlMsg.display .Terminate))⟩ :=
  ⟨rfl, by decide,
   (syncer_terminate_only_from_farcasterd ⟨.Syncer .Bitcoin .Mainnet, 0, [], []⟩
     .Wallet .Terminate).2 rfl (by decide)⟩

/-- C8: the `Request` variants carry the stable integer type tags the spec
assigns: `Hello=0`, `PeerMessage=2`, `GetInfo=100`, `Listen=200`,
`Progress=1002`, `Success=1001`, `Failure=1000`. -/
theorem request_stable_type_tags :
    Rpc.Request.typeTag .Hello = 0
    ∧ (∀ m, Rpc.Request.typeTag (.PeerMessage m) = 2)
    ∧ Rpc.Request.typeTag .GetInfo = 100
    ∧ (∀ a, Rpc.Request.typeTag (.Listen a) = 200)
    ∧ (∀ s, Rpc.Request.typeTag (.Progress s) = 1002)
    ∧ (∀ d, Rpc.Request.typeTag (.Success d) = 1001)
    ∧ (∀ f, Rpc.Request.typeTag (.Failure f) = 1000) :=
  ⟨rfl, fun _ => rfl, rfl, fun _ => rfl, fun _ => rfl, fun _ => rfl, fun _ => rfl⟩

/-- C7: for every well-formed `CheckpointWallet` (wallet body small enough
for its length prefix, address payload of the fixed key length), decoding
the encoding returns the value with the whole stream consumed; the encoding
is the wallet body followed by the Monero address consensus bytes; and on
any stream whose address segment is malformed the decoder fails with
`DataIntegrityError`. -/
theorem checkpoint_wallet_roundtrip (c : Ckpt.CheckpointWallet)
    (h1 : c.wallet.body.length ≤ 255) (h2 : c.xmr_addr.payload.length = 64) :
    Ckpt.CheckpointWallet.strict_decode (Ckpt.CheckpointWallet.strict_encode c)
        = .ok (c, [])
    ∧ Ckpt.CheckpointWallet.strict_encode c
        = c.wallet.strict_encode ++ c.xmr_addr.consensus_encode
    ∧ (∀ (s : List Byte) (w : Ckpt.Wallet) (rest : List Byte) (msg : String),
        Ckpt.Wallet.strict_decode s = .ok (w, rest) →
        Ckpt.Address.consensus_decode rest = .error msg →
        Ckpt.CheckpointWallet.strict_decode s
          = .error (.dataIntegrityError msg)) := by
  obtain ⟨⟨body⟩, net, payload⟩ := c
  simp only [Ckpt.CheckpointWallet.wallet] at h1
  simp only [Ckpt.CheckpointWallet.xmr_addr] at h2
  refine ⟨?_, rfl, ?_⟩
  · have hm : body.length % 256 = body.length := Nat.mod_eq_of_lt (by omega)
    simp only [Ckpt.CheckpointWallet.strict_encode, Ckpt.Wallet.strict_encode,
      Ckpt.Address.consensus_encode, Ckpt.CheckpointWallet.strict_decode,
      Ckpt.Wallet.strict_decode, List.cons_append, hm]
    rw [if_neg (by simp only [List.length_append, List.length_cons]; omega)]
    rw [List.take_left, List.drop_left]
    simp only [Ckpt.Address.consensus_decode]
    rw [if_neg (by omega)]
    rw [← h2, List.take_length, List.drop_length]
  · intro s w rest msg hw ha
    simp [Ckpt.CheckpointWallet.strict_decode, hw, ha]

theorem checkpoint_wallet_roundtrip_witness :
    (Ckpt.CheckpointWallet.mk ⟨[2, 3]⟩ ⟨1, List.replicate 64 0⟩).wallet.body.length
        ≤ 255
    ∧ (Ckpt.CheckpointWallet.mk ⟨[2, 3]⟩
        ⟨1, List.replicate 64 0⟩).xmr_addr.payload.length = 64
    ∧ Ckpt.CheckpointWallet.strict_decode
        (Ckpt.CheckpointWallet.strict_encode
          (Ckpt.CheckpointWallet.mk ⟨[2, 3]⟩ ⟨1, List.replicate 64 0⟩))
        = .ok (Ckpt.CheckpointWallet.mk ⟨[2, 3]⟩ ⟨1, List.replicate 64 0⟩, []) :=
  ⟨by decide, by decide,
   (checkpoint_wallet_roundtrip
     (Ckpt.CheckpointWallet.mk ⟨[2, 3]⟩ ⟨1, List.replicate 64 0⟩)
     (by decide) (by decide)).1⟩

end FN
